import Mathlib

/-!
Verification of the Roblox-scraping platform's core specification.

The repository ships the React frontend (src/frontend); the Python backend
implementing the scheduler, job runner, snapshot store and analytics engine is
not part of the source tree.  Backend behaviour is therefore modelled from the
specification (definitions marked "Modelled from the spec"), while the frontend
pages Analytics.tsx and Scraping.tsx are embedded directly from their code.

Conventions: machine numbers are Int/Nat, analytic values are ℚ, timestamps are
Int (a single time unit; days for the analytics scenarios, seconds for the
scheduler scenarios).  Fallible lookups return Option.
-/

/-- Counter observations carried by one snapshot (visits, favorites, likes,
dislikes, active), as in the Snapshot data model. -/
structure Counters where
  visits : Int
  favorites : Int
  likes : Int
  dislikes : Int
  active : Int
  deriving DecidableEq, Repr

/-- One immutable, timestamped observation of an entity
`(entity_id, captured_at, counters)`. -/
structure Snapshot where
  entityId : Nat
  capturedAt : Int
  counters : Counters
  deriving DecidableEq, Repr

/-- Round a rational to 3 decimal places (the spec's "rounded to 3 decimals"). -/
def round3 (q : ℚ) : ℚ := ((round (q * 1000) : ℤ) : ℚ) / 1000

/-- Clamp a rational to the interval `[0, +∞)`. -/
def clamp0 (q : ℚ) : ℚ := if q < 0 then 0 else q

/-- Modelled from the spec: the Snapshot Store query
`nearest_at_or_before(entity_id, target_time)` — the snapshot of entity `e`
with the greatest `captured_at ≤ t`, later insertion winning ties; `none` if no
snapshot exists at or before `t`.  (The snapshot-store code is not in src/.) -/
def nearestAtOrBefore (snaps : List Snapshot) (e : Nat) (t : Int) : Option Snapshot :=
  (snaps.filter (fun s => s.entityId == e && decide (s.capturedAt ≤ t))).foldl
    (fun acc s =>
      match acc with
      | none => some s
      | some b => if b.capturedAt ≤ s.capturedAt then some s else some b)
    none

/-- The snapshots of entity `e` with `captured_at ∈ [tstart, tend)`. -/
def windowSnaps (snaps : List Snapshot) (e : Nat) (tstart tend : Int) : List Snapshot :=
  snaps.filter
    (fun sn => sn.entityId == e && decide (tstart ≤ sn.capturedAt) && decide (sn.capturedAt < tend))

/-- Modelled from the spec: the Snapshot Store query
`windowed_average(entity_id, start, end, field)` — arithmetic mean of `field`
over snapshots with `captured_at ∈ [start, end)`, `none` on an empty window.
(The snapshot-store code is not in src/.) -/
def windowedAverage (snaps : List Snapshot) (e : Nat) (tstart tend : Int)
    (field : Counters → Int) : Option ℚ :=
  if (windowSnaps snaps e tstart tend).isEmpty then none
  else
    some (((windowSnaps snaps e tstart tend).map (fun sn => ((field sn.counters : ℤ) : ℚ))).sum /
      ((windowSnaps snaps e tstart tend).length : ℚ))

/-- Modelled from the spec: `Retention(entity, horizon_days)` —
`baseline_snapshot = nearest_at_or_before(entity, first_seen_at)`,
`horizon_snapshot = nearest_at_or_before(entity, first_seen_at + horizon_days)`,
result `horizon.active / baseline.active * 100` rounded to 3 decimals and
clamped to `[0, +∞)`; `null` when either snapshot is absent.
(The analytics-engine code is not in src/.) -/
def retention (snaps : List Snapshot) (e : Nat) (firstSeenAt : Int) (horizon : Int) : Option ℚ :=
  match nearestAtOrBefore snaps e firstSeenAt, nearestAtOrBefore snaps e (firstSeenAt + horizon) with
  | some b, some h =>
      some (clamp0 (round3 ((h.counters.active : ℚ) / (b.counters.active : ℚ) * 100)))
  | _, _ => none

/-- Modelled from the spec: `Growth(entity, window_days, comparison)` —
`recent = windowed_average(now-window, now)`,
`older = windowed_average(now-2·window, now-window)`,
`growth_percent = (recent - older) / older * 100` with 3-decimal rounding,
`null` if `older` is absent or zero.  (The analytics-engine code is not in src/.) -/
def growth (snaps : List Snapshot) (e : Nat) (now window : Int)
    (field : Counters → Int) : Option ℚ :=
  match windowedAverage snaps e (now - window) now field,
        windowedAverage snaps e (now - 2 * window) (now - window) field with
  | some recent, some older =>
      if older = 0 then none else some (round3 ((recent - older) / older * 100))
  | _, _ => none

/-- The day-0/1/7/30 snapshot history of the spec's retention scenario:
entity 1 first seen at day 0 with `active=500`, then `active=400` at day 1,
`active=150` at day 7, `active=50` at day 30. -/
def c7snaps : List Snapshot :=
  [⟨1, 0, ⟨0, 0, 0, 0, 500⟩⟩, ⟨1, 1, ⟨0, 0, 0, 0, 400⟩⟩,
   ⟨1, 7, ⟨0, 0, 0, 0, 150⟩⟩, ⟨1, 30, ⟨0, 0, 0, 0, 50⟩⟩]

/-- History realising the spec's growth scenario with `window = 5`, `now = 10`:
one snapshot in the older window with `active=1000` and one in the recent
window with `active=1200`. -/
def c8snaps : List Snapshot :=
  [⟨1, 2, ⟨0, 0, 0, 0, 1000⟩⟩, ⟨1, 7, ⟨0, 0, 0, 0, 1200⟩⟩]

/-! Frontend embeddings (from src/frontend/src/pages/Analytics.tsx and
Scraping.tsx, with the API row types from src/frontend/src/lib/api.ts). -/

/-- The fields of the `RetentionData` API row consumed by the Analytics page:
`game_name`, and the nullable `d1_retention` / `d7_retention`. -/
structure RetentionRow where
  gameName : String
  d1Retention : Option ℚ
  d7Retention : Option ℚ
  deriving DecidableEq, Repr

/-- One point of `retentionChartData` as built in Analytics.tsx:
`{ name: game.game_name, d1: game.d1_retention || 0, d7: game.d7_retention || 0 }`. -/
structure RetentionChartPoint where
  name : String
  d1 : ℚ
  d7 : ℚ
  deriving DecidableEq, Repr

/-- JavaScript `x || 0` on a nullable number: absent yields 0, a present value
yields itself (a present 0 also yields 0). -/
def jsOrZero (v : Option ℚ) : ℚ :=
  match v with
  | none => 0
  | some x => x

/-- The chart-data builder of Analytics.tsx lines 197-201:
`retentionData?.slice(0, 10).map(game => ({ name: game.game_name,
d1: game.d1_retention || 0, d7: game.d7_retention || 0 }))`. -/
def retentionChartData (rows : List RetentionRow) : List RetentionChartPoint :=
  (rows.take 10).map
    (fun g => { name := g.gameName, d1 := jsOrZero g.d1Retention, d7 := jsOrZero g.d7Retention })

/-- The numeric value rendered by the games-table growth cell of Analytics.tsx
lines 364-366: `Number(game.growth_percent || 0)`. -/
def growthCellValue (g : Option ℚ) : ℚ := jsOrZero g

/-- Whether the games-table growth cell of Analytics.tsx lines 364-366 renders
the positive style and plus sign: `(game.growth_percent || 0) >= 0`. -/
def growthCellPositive (g : Option ℚ) : Bool := decide (0 ≤ jsOrZero g)

/-- The fields of the `ScrapingStatus` API row consumed by the Scraping page's
mode indicator: `is_running: boolean` and the optional `next_run?: string`. -/
structure ScrapingStatus where
  isRunning : Bool
  nextRun : Option String
  deriving DecidableEq, Repr

/-- JavaScript truthiness of an optional string: absent and the empty string
are falsy, any other string is truthy. -/
def jsTruthyStr (v : Option String) : Bool :=
  match v with
  | none => false
  | some s => !(s == "")

/-- The mode indicator of Scraping.tsx lines 131-146:
`status?.is_running ? "Running" : status?.next_run ? "Scheduled" : "Idle"`
(a JSX conditional chain; `next_run` is tested for JavaScript truthiness). -/
def modeLabel (st : ScrapingStatus) : String :=
  if st.isRunning then "Running"
  else if jsTruthyStr st.nextRun then "Scheduled"
  else "Idle"

/-! The scheduler / job-runner / run-record state machine.  Modelled from the
spec (sections 3-5): the backend implementing it is not in src/. -/

/-- RunRecord status: `pending, running, success, failed, cancelled`. -/
inductive RunStatus where
  | pending
  | running
  | success
  | failed
  | cancelled
  deriving DecidableEq, Repr

/-- Modelled from the spec: a RunRecord
`(id, status, started_at, completed_at?, entities_scraped, new_entities_found, error?)`. -/
structure RunRecord where
  id : Nat
  status : RunStatus
  startedAt : Int
  completedAt : Option Int
  entitiesScraped : Nat
  newEntitiesFound : Nat
  error : Option String
  deriving DecidableEq, Repr

/-- Scheduler mode: `idle, scheduled, running`. -/
inductive SchedMode where
  | idle
  | scheduled
  | running
  deriving DecidableEq, Repr

/-- A pending `next_run_at` timer tagged with the generation that created it;
a timer is active only while its generation is current (the spec's design note:
cadence replacement is modelled by a monotonically increasing `generation_id`,
not by cancelling an opaque timer handle). -/
structure TimerEntry where
  gen : Nat
  due : Int
  deriving DecidableEq, Repr

/-- One entry of the external listing consumed by a job-runner cycle. -/
structure ListingItem where
  externalId : Nat
  name : String
  creator : String
  genre : String
  counters : Counters
  deriving DecidableEq, Repr

/-- Modelled from the spec: a Catalogue row — immutable `external_id`, mutable
display attributes, local `first_seen_at`. -/
structure CatRow where
  externalId : Nat
  name : String
  creator : String
  genre : String
  firstSeenAt : Int
  deriving DecidableEq, Repr

/-- Modelled from the spec: the whole observable state of the core — scheduler
`ScheduleState (mode, next_run_at timers, interval, generation_id)`, the
run-record log, the Catalogue, the append-only Snapshot Store, the cooperative
cancellation flag, and a monotone clock of the last observed instant. -/
structure SysState where
  mode : SchedMode
  generationId : Nat
  interval : Int
  timers : List TimerEntry
  runGen : Nat
  runStart : Int
  cancelRequested : Bool
  records : List RunRecord
  catalogue : List CatRow
  snapshots : List Snapshot
  clock : Int
  deriving DecidableEq, Repr

/-- The initial system state: idle, nothing recorded. -/
def initState : SysState :=
  { mode := .idle, generationId := 0, interval := 3600, timers := [], runGen := 0,
    runStart := 0, cancelRequested := false, records := [], catalogue := [],
    snapshots := [], clock := 0 }

/-- Modelled from the spec: begin a job-runner cycle at instant `now` — create
the cycle's RunRecord in `running` state and move the scheduler to `running`.
Only invoked with the scheduler not already running. -/
def beginRun (now : Int) (s : SysState) : SysState :=
  { s with mode := .running, runGen := s.generationId, runStart := now,
           cancelRequested := false, clock := now,
           records := s.records ++
             [{ id := s.records.length, status := .running, startedAt := now,
                completedAt := none, entitiesScraped := 0, newEntitiesFound := 0,
                error := none }] }

/-- Modelled from the spec: `start_schedule(interval)` — always accepted.
Increments `generation_id` (superseding any pending timer) and installs the new
interval; if a run is in flight it is not interrupted, otherwise a cycle starts
immediately. -/
def startSchedule (now intervalArg : Int) (s : SysState) : SysState :=
  let s1 := { s with generationId := s.generationId + 1, interval := intervalArg,
                     cancelRequested := false, clock := now }
  match s.mode with
  | .running => s1
  | _ => beginRun now s1

/-- Modelled from the spec: a scheduled timer fires at `now` — the fired timer
is consumed and a cycle begins. -/
def fireTimer (now : Int) (s : SysState) : SysState :=
  beginRun now { s with timers := s.timers.filter (fun t => !(t.gen == s.generationId)) }

/-- Modelled from the spec: `stop_schedule()` — cancels pending timers; if a
run is in flight, requests cooperative cancellation (the flight is not
preempted), otherwise the scheduler goes idle at once. -/
def stopSchedule (s : SysState) : SysState :=
  if s.mode == SchedMode.running then
    { s with cancelRequested := true, timers := [] }
  else
    { s with mode := .idle, timers := [] }

/-- Mark every `running` RunRecord terminal with the given status, completion
time, counts and error text. -/
def finishRecords (st : RunStatus) (now : Int) (err : Option String)
    (scraped newFound : Nat) (recs : List RunRecord) : List RunRecord :=
  recs.map (fun r =>
    if r.status == RunStatus.running then
      { r with status := st, completedAt := some now, entitiesScraped := scraped,
               newEntitiesFound := newFound, error := err }
    else r)

/-- Modelled from the spec: Catalogue upsert of one listing item — an unseen
`external_id` creates a row (`first_seen_at := now`), a known one overwrites
only the mutable display fields; the Bool reports whether the entity was new. -/
def upsertOne (now : Int) (cat : List CatRow) (it : ListingItem) : List CatRow × Bool :=
  if cat.any (fun r => r.externalId == it.externalId) then
    (cat.map (fun r =>
      if r.externalId == it.externalId then
        { r with name := it.name, creator := it.creator, genre := it.genre }
      else r), false)
  else
    (cat ++ [{ externalId := it.externalId, name := it.name, creator := it.creator,
               genre := it.genre, firstSeenAt := now }], true)

/-- Upsert a whole listing, counting how many entities were new. -/
def upsertAll (now : Int) (cat : List CatRow) (items : List ListingItem) : List CatRow × Nat :=
  items.foldl
    (fun acc it =>
      let step := upsertOne now acc.1 it
      (step.1, acc.2 + (if step.2 then 1 else 0)))
    (cat, 0)

/-- Modelled from the spec: a job-runner cycle completes at `now` having
listed `listing`.  If cancellation was requested the run ends `cancelled` with
no further effects and the scheduler goes idle; otherwise the Catalogue is
upserted, one Snapshot per listed entity is appended with the single
`captured_at` shared by the whole cycle (the run's start time), the RunRecord
ends `success`, and `next_run_at = started_at + interval` is scheduled under
the current generation. -/
def completeSuccess (listing : List ListingItem) (now : Int) (s : SysState) : SysState :=
  if s.cancelRequested then
    { s with mode := .idle, cancelRequested := false, clock := now,
             records := finishRecords .cancelled now none 0 0 s.records }
  else
    { s with mode := .scheduled, clock := now,
             catalogue := (upsertAll s.runStart s.catalogue listing).1,
             snapshots := s.snapshots ++ listing.map
               (fun it => { entityId := it.externalId, capturedAt := s.runStart,
                            counters := it.counters }),
             records := finishRecords .success now none listing.length
               (upsertAll s.runStart s.catalogue listing).2 s.records,
             timers := s.timers ++ [{ gen := s.generationId, due := s.runStart + s.interval }] }

/-- Modelled from the spec: the cycle's top-level listing fetch failed
(`ListingUnavailable`) — run-fatal.  The RunRecord ends `failed`, no Snapshot
is written and the Catalogue is untouched; unless a stop was requested the
scheduler still transitions to `scheduled` (the cadence keeps trying). -/
def completeFailure (err : String) (now : Int) (s : SysState) : SysState :=
  if s.cancelRequested then
    { s with mode := .idle, cancelRequested := false, clock := now,
             records := finishRecords .failed now (some err) 0 0 s.records }
  else
    { s with mode := .scheduled, clock := now,
             records := finishRecords .failed now (some err) 0 0 s.records,
             timers := s.timers ++ [{ gen := s.generationId, due := s.runStart + s.interval }] }

/-- The timers currently active, i.e. tagged with the current generation. -/
def activeTimers (s : SysState) : List TimerEntry :=
  s.timers.filter (fun t => t.gen == s.generationId)

/-- The number of RunRecords currently in `running` state. -/
def runningCount (s : SysState) : Nat :=
  (s.records.filter (fun r => r.status == RunStatus.running)).length

/-- One observable operation of the system, each timed operation happening at
an instant not before the previously observed one. -/
inductive Step : SysState → SysState → Prop where
  | start (s : SysState) (now intervalArg : Int) (h : s.clock ≤ now) :
      Step s (startSchedule now intervalArg s)
  | fire (s : SysState) (now : Int) (h : s.clock ≤ now) (hm : s.mode = .scheduled) :
      Step s (fireTimer now s)
  | finishOk (s : SysState) (listing : List ListingItem) (now : Int)
      (h : s.clock ≤ now) (hm : s.mode = .running) :
      Step s (completeSuccess listing now s)
  | finishFail (s : SysState) (err : String) (now : Int)
      (h : s.clock ≤ now) (hm : s.mode = .running) :
      Step s (completeFailure err now s)
  | halt (s : SysState) : Step s (stopSchedule s)

/-- The states the system can reach from the initial state. -/
inductive Reachable : SysState → Prop where
  | init : Reachable initState
  | step {s s' : SysState} : Reachable s → Step s s' → Reachable s'

/-- The snapshot-store invariant carried through every operation: the store is
ordered by `captured_at` (non-decreasing in insertion order), every stored
instant is at most the last observed instant, and while a run is in flight the
whole store predates the run's start. -/
def SnapInv (s : SysState) : Prop :=
  List.Pairwise (fun a b => a.capturedAt ≤ b.capturedAt) s.snapshots ∧
  (∀ sn ∈ s.snapshots, sn.capturedAt ≤ s.clock) ∧
  (s.mode = SchedMode.running →
    (∀ sn ∈ s.snapshots, sn.capturedAt ≤ s.runStart) ∧ s.runStart ≤ s.clock)

/-! Theorems. -/

/-- Helper: rounding an integer to 3 decimals is the identity. -/
theorem round3_intCast (n : ℤ) : round3 (n : ℚ) = n := by
  have h : ((n : ℚ) * 1000) = ((n * 1000 : ℤ) : ℚ) := by push_cast; ring
  rw [round3, h, round_intCast]
  push_cast
  field_simp

/-- C7: on the scenario history (first seen day 0 with active 500; snapshots
active 400 at day 1, 150 at day 7, 50 at day 30), Retention is 80.0 at horizon
1, 30.0 at horizon 7 and 10.0 at horizon 30. -/
theorem retention_scenario_values :
    retention c7snaps 1 0 1 = some 80 ∧ retention c7snaps 1 0 7 = some 30 ∧
      retention c7snaps 1 0 30 = some 10 := by
  have hb : nearestAtOrBefore c7snaps 1 0 = some ⟨1, 0, ⟨0, 0, 0, 0, 500⟩⟩ := by decide
  have h1 : nearestAtOrBefore c7snaps 1 (0 + 1) = some ⟨1, 1, ⟨0, 0, 0, 0, 400⟩⟩ := by decide
  have h7 : nearestAtOrBefore c7snaps 1 (0 + 7) = some ⟨1, 7, ⟨0, 0, 0, 0, 150⟩⟩ := by decide
  have h30 : nearestAtOrBefore c7snaps 1 (0 + 30) = some ⟨1, 30, ⟨0, 0, 0, 0, 50⟩⟩ := by decide
  refine ⟨?_, ?_, ?_⟩
  · rw [retention, hb, h1]
    have hv : (((400 : ℤ) : ℚ) / ((500 : ℤ) : ℚ) * 100) = ((80 : ℤ) : ℚ) := by norm_num
    simp only [hv, round3_intCast]
    norm_num [clamp0]
  · rw [retention, hb, h7]
    have hv : (((150 : ℤ) : ℚ) / ((500 : ℤ) : ℚ) * 100) = ((30 : ℤ) : ℚ) := by norm_num
    simp only [hv, round3_intCast]
    norm_num [clamp0]
  · rw [retention, hb, h30]
    have hv : (((50 : ℤ) : ℚ) / ((500 : ℤ) : ℚ) * 100) = ((10 : ℤ) : ℚ) := by norm_num
    simp only [hv, round3_intCast]
    norm_num [clamp0]

/-- C9: Retention is `null` (so in particular never 0) whenever the baseline
snapshot or the horizon snapshot is absent. -/
theorem retention_insufficient_null (snaps : List Snapshot) (e : Nat)
    (firstSeenAt horizon : Int)
    (h : nearestAtOrBefore snaps e firstSeenAt = none ∨
         nearestAtOrBefore snaps e (firstSeenAt + horizon) = none) :
    retention snaps e firstSeenAt horizon = none := by
  rcases h with h | h
  · rw [retention, h]
  · rw [retention, h]
    cases nearestAtOrBefore snaps e firstSeenAt <;> rfl

/-- Witness for C9 at a concrete input: the empty history has no baseline
snapshot, and Retention on it is `null`. -/
theorem retention_insufficient_null_witness :
    retention [] 1 0 7 = none :=
  retention_insufficient_null [] 1 0 7 (Or.inl rfl)

/-- Helper: the older window of the growth scenario holds exactly the
active-1000 snapshot. -/
theorem c8_window_older :
    windowSnaps c8snaps 1 (10 - 2 * 5) (10 - 5) = [⟨1, 2, ⟨0, 0, 0, 0, 1000⟩⟩] := by
  decide

/-- Helper: the recent window of the growth scenario holds exactly the
active-1200 snapshot. -/
theorem c8_window_recent :
    windowSnaps c8snaps 1 (10 - 5) 10 = [⟨1, 7, ⟨0, 0, 0, 0, 1200⟩⟩] := by
  decide

/-- Helper: the older windowed average of the growth scenario is 1000. -/
theorem c8_older :
    windowedAverage c8snaps 1 (10 - 2 * 5) (10 - 5) Counters.active = some 1000 := by
  simp only [windowedAverage, c8_window_older]
  norm_num

/-- Helper: the recent windowed average of the growth scenario is 1200. -/
theorem c8_recent :
    windowedAverage c8snaps 1 (10 - 5) 10 Counters.active = some 1200 := by
  simp only [windowedAverage, c8_window_recent]
  norm_num

/-- Helper: the scenario growth value rounds to exactly 20. -/
theorem c8_val : round3 (((1200 : ℚ) - 1000) / 1000 * 100) = 20 := by
  have hv : (((1200 : ℚ) - 1000) / 1000 * 100) = ((20 : ℤ) : ℚ) := by norm_num
  rw [hv, round3_intCast]
  norm_num

/-- Helper: the scenario's older average is nonzero. -/
theorem c8_nonzero : (1000 : ℚ) ≠ 0 := by norm_num

/-- C8: Growth is `null` whenever the older windowed average is absent or
zero, and otherwise (both averages present, older nonzero) it is
`(recent - older) / older * 100` rounded to 3 decimals, the sign of the
difference preserved by the formula. -/
theorem growth_null_and_formula (snaps : List Snapshot) (e : Nat) (now window : Int)
    (f : Counters → Int) :
    ((windowedAverage snaps e (now - 2 * window) (now - window) f = none ∨
        windowedAverage snaps e (now - 2 * window) (now - window) f = some 0) →
      growth snaps e now window f = none) ∧
    (∀ r o : ℚ, windowedAverage snaps e (now - window) now f = some r →
      windowedAverage snaps e (now - 2 * window) (now - window) f = some o → o ≠ 0 →
      growth snaps e now window f = some (round3 ((r - o) / o * 100))) := by
  constructor
  · intro h
    rcases h with h | h
    · rw [growth, h]
      cases windowedAverage snaps e (now - window) now f <;> rfl
    · rw [growth, h]
      cases windowedAverage snaps e (now - window) now f
      · rfl
      · simp
  · intro r o hr ho hne
    rw [growth, hr, ho]
    simp [hne]

/-- Witness for C8 at the concrete scenario: older average 1000 and recent
average 1200 give growth 20.0. -/
theorem growth_null_and_formula_witness :
    growth c8snaps 1 10 5 Counters.active = some 20 := by
  rw [(growth_null_and_formula c8snaps 1 10 5 Counters.active).2 1200 1000
    c8_recent c8_older c8_nonzero, c8_val]

/-- C2 counterexample: the Analytics page does coerce absent analytics values
to 0 when presenting them.  A row with `d1_retention = null` produces the same
chart data as a row with a computed 0, the chart value for the null row is 0,
and the games-table growth cell renders a null `growth_percent` as 0 with the
positive sign. -/
theorem analytics_null_coercion_cex :
    retentionChartData [⟨"g", none, none⟩] = retentionChartData [⟨"g", some 0, some 0⟩] ∧
    retentionChartData [⟨"g", none, none⟩] = [⟨"g", 0, 0⟩] ∧
    growthCellValue none = growthCellValue (some 0) ∧
    growthCellValue none = 0 ∧ growthCellPositive none = true :=
  ⟨rfl, rfl, rfl, rfl, rfl⟩

/-- C2 amended: the Analytics page's presentation callers map absent analytics
values to 0 rather than preserving the null/zero distinction — every row in
the charted prefix whose `d1_retention` is null yields a chart point with
`d1 = 0`, and the games-table growth cell renders a null `growth_percent` as 0
with the positive (plus-signed) style. -/
theorem analytics_null_to_zero_amended :
    (∀ (rows : List RetentionRow) (g : RetentionRow), g ∈ rows.take 10 →
      g.d1Retention = none →
      ({ name := g.gameName, d1 := 0, d7 := jsOrZero g.d7Retention } : RetentionChartPoint) ∈
        retentionChartData rows) ∧
    growthCellValue none = 0 ∧ growthCellPositive none = true := by
  refine ⟨?_, rfl, rfl⟩
  intro rows g hg hd
  have hmem :
      ({ name := g.gameName, d1 := jsOrZero g.d1Retention,
         d7 := jsOrZero g.d7Retention } : RetentionChartPoint) ∈ retentionChartData rows :=
    List.mem_map_of_mem _ hg
  rw [hd] at hmem
  simpa [jsOrZero] using hmem

/-- Witness for the amended C2 at a concrete input: a single row with null
`d1_retention` and `d7_retention = 5` is charted as `d1 = 0`. -/
theorem analytics_null_to_zero_amended_witness :
    ({ name := "g", d1 := 0, d7 := 5 } : RetentionChartPoint) ∈
      retentionChartData [⟨"g", none, some 5⟩] ∧ growthCellValue none = 0 := by
  refine ⟨?_, analytics_null_to_zero_amended.2.1⟩
  have h := analytics_null_to_zero_amended.1 [⟨"g", none, some 5⟩] ⟨"g", none, some 5⟩
    (by simp) rfl
  simpa [jsOrZero] using h

/-- C10: the Scraping page's mode indicator renders exactly one of the three
labels as a function of the status: "Running" iff `is_running` is true (taking
precedence over a set `next_run`), "Scheduled" iff not running and `next_run`
is set (JavaScript-truthy: present and nonempty), and "Idle" otherwise. -/
theorem mode_indicator_labels (st : ScrapingStatus) :
    (modeLabel st = "Running" ∨ modeLabel st = "Scheduled" ∨ modeLabel st = "Idle") ∧
    (modeLabel st = "Running" ↔ st.isRunning = true) ∧
    (modeLabel st = "Scheduled" ↔ st.isRunning = false ∧ jsTruthyStr st.nextRun = true) ∧
    (modeLabel st = "Idle" ↔ st.isRunning = false ∧ jsTruthyStr st.nextRun = false) := by
  obtain ⟨ir, nr⟩ := st
  cases ir
  · cases hb : jsTruthyStr nr <;> simp [modeLabel, hb]
  · simp [modeLabel]

/-- Helper: a start call always increments the generation. -/
theorem startSchedule_generationId (now intervalArg : Int) (s : SysState) :
    (startSchedule now intervalArg s).generationId = s.generationId + 1 := by
  cases hm : s.mode <;> simp [startSchedule, beginRun, hm]

/-- Helper: a start call always installs the requested interval. -/
theorem startSchedule_interval (now intervalArg : Int) (s : SysState) :
    (startSchedule now intervalArg s).interval = intervalArg := by
  cases hm : s.mode <;> simp [startSchedule, beginRun, hm]

/-- Helper: after a start call the scheduler is running. -/
theorem startSchedule_mode (now intervalArg : Int) (s : SysState) :
    (startSchedule now intervalArg s).mode = SchedMode.running := by
  cases hm : s.mode <;> simp [startSchedule, beginRun, hm]

/-- Helper: a start call adds no timer entry. -/
theorem startSchedule_timers (now intervalArg : Int) (s : SysState) :
    (startSchedule now intervalArg s).timers = s.timers := by
  cases hm : s.mode <;> simp [startSchedule, beginRun, hm]

/-- Helper: a start call clears the cancellation flag. -/
theorem startSchedule_cancel (now intervalArg : Int) (s : SysState) :
    (startSchedule now intervalArg s).cancelRequested = false := by
  cases hm : s.mode <;> simp [startSchedule, beginRun, hm]

/-- Helper: timers all tagged below a generation do not survive a filter for
that generation. -/
theorem filter_stale_timers (ts : List TimerEntry) (g g' : Nat)
    (h : ∀ t ∈ ts, t.gen ≤ g) (hlt : g < g') :
    ts.filter (fun t => t.gen == g') = [] := by
  rw [List.filter_eq_nil_iff]
  intro t ht
  have := h t ht
  simp only [beq_iff_eq]
  omega

/-- C6: when the top-level listing fetch fails, the cycle is atomic apart from
its RunRecord — the snapshot store and the catalogue are exactly the pre-cycle
ones, the record log keeps its length, and the record that was `running`
reaches terminal status `failed`. -/
theorem listing_failure_atomicity (s : SysState) (err : String) (now : Int)
    (_hm : s.mode = SchedMode.running) :
    (completeFailure err now s).snapshots = s.snapshots ∧
    (completeFailure err now s).catalogue = s.catalogue ∧
    (completeFailure err now s).records.length = s.records.length ∧
    ∀ (i : Nat) (h1 : i < s.records.length)
      (h2 : i < (completeFailure err now s).records.length),
      (s.records.get ⟨i, h1⟩).status = RunStatus.running →
      ((completeFailure err now s).records.get ⟨i, h2⟩).status = RunStatus.failed := by
  by_cases hc : s.cancelRequested
  · refine ⟨by simp [completeFailure, hc], by simp [completeFailure, hc],
      by simp [completeFailure, hc, finishRecords], ?_⟩
    intro i h1 h2 hr
    rw [List.get_eq_getElem] at hr
    simp only [completeFailure, hc, if_true, finishRecords, List.get_eq_getElem,
      List.getElem_map]
    simp [hr]
  · refine ⟨by simp [completeFailure, hc], by simp [completeFailure, hc],
      by simp [completeFailure, hc, finishRecords], ?_⟩
    intro i h1 h2 hr
    rw [List.get_eq_getElem] at hr
    simp only [completeFailure, hc, if_false, finishRecords, List.get_eq_getElem,
      List.getElem_map]
    simp [hr]

/-- Witness for C6 at a concrete input: in the state whose only record is the
run begun by a start at time 0, a listing failure at time 300 leaves the empty
snapshot store and catalogue unchanged and fails the running record. -/
theorem listing_failure_atomicity_witness :
    (completeFailure "ListingUnavailable" 300 (startSchedule 0 3600 initState)).snapshots =
        (startSchedule 0 3600 initState).snapshots ∧
      (completeFailure "ListingUnavailable" 300 (startSchedule 0 3600 initState)).catalogue =
        (startSchedule 0 3600 initState).catalogue :=
  ⟨(listing_failure_atomicity (startSchedule 0 3600 initState) "ListingUnavailable" 300
      (startSchedule_mode 0 3600 initState)).1,
   (listing_failure_atomicity (startSchedule 0 3600 initState) "ListingUnavailable" 300
      (startSchedule_mode 0 3600 initState)).2.1⟩

/-- Helper: an uncancelled completion with no other active timer installs the
single active timer `started_at + interval` under the current generation. -/
theorem complete_active_timer (s : SysState) (listing : List ListingItem) (now : Int)
    (hc : s.cancelRequested = false) (ha : activeTimers s = []) :
    activeTimers (completeSuccess listing now s) =
      [{ gen := s.generationId, due := s.runStart + s.interval }] := by
  simp only [activeTimers] at ha
  simp only [completeSuccess, hc, Bool.false_eq_true, if_false, activeTimers,
    List.filter_append, ha]
  simp

/-- C4: when a run completes under the current generation (no cancellation
pending, no other active timer), the scheduler installs exactly one active
`next_run_at`, equal to the run's `started_at` plus the interval — anchored to
the start time; the completion instant `now` does not enter the formula. -/
theorem next_run_anchored_to_start (s : SysState) (listing : List ListingItem) (now : Int)
    (_hm : s.mode = SchedMode.running) (hc : s.cancelRequested = false)
    (_hg : s.runGen = s.generationId) (ha : activeTimers s = []) :
    activeTimers (completeSuccess listing now s) =
      [{ gen := s.generationId, due := s.runStart + s.interval }] :=
  complete_active_timer s listing now hc ha

/-- Witness for C4 at the spec's scenario: scheduler started at `T0 = 0` with
interval 3600; the cycle finishes at `T0 + 300` and the next run is scheduled
at `T0 + 3600`, anchored to the start instant. -/
theorem next_run_anchored_to_start_witness :
    activeTimers (completeSuccess [] 300 (startSchedule 0 3600 initState)) =
      [{ gen := 1, due := 3600 }] := by
  have h := next_run_anchored_to_start (startSchedule 0 3600 initState) [] 300
    (startSchedule_mode 0 3600 initState) (startSchedule_cancel 0 3600 initState)
    (by decide) (by decide)
  simpa using h

/-- C3: `start` is accepted in every scheduler state — including mode
`running` — and always takes effect: two successive calls bump the generation
twice and leave the cadence of the most recent call installed.  No stale timer
stays active (the prior cadence is replaced, never stacked), and as soon as
the in-flight run completes exactly one `next_run_at` timer is active, carrying
the most recent interval. -/
theorem start_schedule_cadence_replacement (s : SysState) (n1 i1 n2 i2 : Int)
    (listing : List ListingItem) (n3 : Int)
    (hg : ∀ t ∈ s.timers, t.gen ≤ s.generationId) :
    (startSchedule n2 i2 (startSchedule n1 i1 s)).generationId = s.generationId + 2 ∧
    (startSchedule n2 i2 (startSchedule n1 i1 s)).interval = i2 ∧
    (startSchedule n2 i2 (startSchedule n1 i1 s)).mode = SchedMode.running ∧
    activeTimers (startSchedule n2 i2 (startSchedule n1 i1 s)) = [] ∧
    activeTimers (completeSuccess listing n3 (startSchedule n2 i2 (startSchedule n1 i1 s))) =
      [{ gen := s.generationId + 2,
         due := (startSchedule n2 i2 (startSchedule n1 i1 s)).runStart + i2 }] := by
  set s2 := startSchedule n2 i2 (startSchedule n1 i1 s) with hs2
  have hgen : s2.generationId = s.generationId + 2 := by
    rw [hs2, startSchedule_generationId, startSchedule_generationId]
  have hint : s2.interval = i2 := by rw [hs2, startSchedule_interval]
  have hmode : s2.mode = SchedMode.running := by rw [hs2, startSchedule_mode]
  have htimers : s2.timers = s.timers := by
    rw [hs2, startSchedule_timers, startSchedule_timers]
  have hcancel : s2.cancelRequested = false := by rw [hs2, startSchedule_cancel]
  have hstale : s.timers.filter (fun t => t.gen == s.generationId + 2) = [] :=
    filter_stale_timers s.timers s.generationId (s.generationId + 2) hg (by omega)
  have hactive : activeTimers s2 = [] := by
    rw [activeTimers, htimers, hgen, hstale]
  refine ⟨hgen, hint, hmode, hactive, ?_⟩
  rw [complete_active_timer s2 listing n3 hcancel hactive, hgen, hint]

/-- Witness for C3 at a concrete input: from the initial state, a start at
time 0 (interval 3600) followed by a start at time 50 (interval 60) and the
completion of the in-flight run at time 100 leaves exactly one active timer,
due at the run's start 0 plus the latest interval 60, under generation 2. -/
theorem start_schedule_cadence_replacement_witness :
    activeTimers (completeSuccess [] 100 (startSchedule 50 60 (startSchedule 0 3600 initState))) =
      [{ gen := 2, due := 60 }] := by
  have h := (start_schedule_cadence_replacement initState 0 3600 50 60 [] 100
    (by simp [initState])).2.2.2.2
  simpa using h

/-- Helper: marking every running record terminal leaves no running record. -/
theorem finishRecords_no_running (st : RunStatus) (now : Int) (err : Option String)
    (scraped newFound : Nat) (recs : List RunRecord) (h : st ≠ RunStatus.running) :
    (finishRecords st now err scraped newFound recs).filter
      (fun r => r.status == RunStatus.running) = [] := by
  rw [List.filter_eq_nil_iff]
  intro r hr
  simp only [finishRecords, List.mem_map] at hr
  obtain ⟨q, _, rfl⟩ := hr
  by_cases hs : q.status == RunStatus.running
  · simp [hs, h]
  · simp [hs]

/-- Helper: beginning a run adds exactly one running record. -/
theorem runningCount_beginRun (now : Int) (s : SysState) :
    runningCount (beginRun now s) = runningCount s + 1 := by
  simp [runningCount, beginRun, List.filter_append]

/-- Helper: one step preserves the running-record count invariant. -/
theorem step_running_invariant (s s' : SysState) (hstep : Step s s')
    (ih : (s.mode ≠ SchedMode.running → runningCount s = 0) ∧ runningCount s ≤ 1) :
    (s'.mode ≠ SchedMode.running → runningCount s' = 0) ∧ runningCount s' ≤ 1 := by
  cases hstep with
  | start now intervalArg hcl =>
    cases hm : s.mode with
    | running =>
      have hrec : runningCount (startSchedule now intervalArg s) = runningCount s := by
        simp [startSchedule, hm, runningCount]
      refine ⟨?_, hrec ▸ ih.2⟩
      intro hmode
      rw [startSchedule_mode] at hmode
      exact absurd rfl hmode
    | idle =>
      have hz : runningCount s = 0 := ih.1 (by rw [hm]; exact fun hx => by cases hx)
      have hrec : runningCount (startSchedule now intervalArg s) = runningCount s + 1 := by
        simp only [startSchedule, hm]
        exact runningCount_beginRun now _
      refine ⟨?_, by omega⟩
      intro hmode
      rw [startSchedule_mode] at hmode
      exact absurd rfl hmode
    | scheduled =>
      have hz : runningCount s = 0 := ih.1 (by rw [hm]; exact fun hx => by cases hx)
      have hrec : runningCount (startSchedule now intervalArg s) = runningCount s + 1 := by
        simp only [startSchedule, hm]
        exact runningCount_beginRun now _
      refine ⟨?_, by omega⟩
      intro hmode
      rw [startSchedule_mode] at hmode
      exact absurd rfl hmode
  | fire now hcl hm =>
    have hz : runningCount s = 0 := ih.1 (by rw [hm]; exact fun hx => by cases hx)
    have hrec : runningCount (fireTimer now s) = runningCount s + 1 := by
      rw [fireTimer, runningCount_beginRun]
      simp [runningCount]
    refine ⟨?_, by omega⟩
    intro hmode
    simp [fireTimer, beginRun] at hmode
  | finishOk listing now hcl hm =>
    have hz : runningCount (completeSuccess listing now s) = 0 := by
      by_cases hc : s.cancelRequested
      · simp [completeSuccess, hc, runningCount, finishRecords_no_running]
      · simp [completeSuccess, hc, runningCount, finishRecords_no_running]
    exact ⟨fun _ => hz, by omega⟩
  | finishFail err now hcl hm =>
    have hz : runningCount (completeFailure err now s) = 0 := by
      by_cases hc : s.cancelRequested
      · simp [completeFailure, hc, runningCount, finishRecords_no_running]
      · simp [completeFailure, hc, runningCount, finishRecords_no_running]
    exact ⟨fun _ => hz, by omega⟩
  | halt =>
    by_cases hm : s.mode = SchedMode.running
    · have hrec : runningCount (stopSchedule s) = runningCount s := by
        simp [stopSchedule, hm, runningCount]
      have hmode : (stopSchedule s).mode = s.mode := by simp [stopSchedule, hm]
      refine ⟨?_, hrec ▸ ih.2⟩
      intro hx
      rw [hmode, hm] at hx
      exact absurd rfl hx
    · have hrec : runningCount (stopSchedule s) = runningCount s := by
        simp [stopSchedule, hm, runningCount]
      have hz : runningCount s = 0 := ih.1 hm
      exact ⟨fun _ => hrec ▸ hz, by omega⟩

/-- Helper: the running-record count invariant holds at every reachable
state. -/
theorem reachable_running_invariant (s : SysState) (h : Reachable s) :
    (s.mode ≠ SchedMode.running → runningCount s = 0) ∧ runningCount s ≤ 1 := by
  induction h with
  | init => exact ⟨fun _ => rfl, by norm_num [runningCount, initState]⟩
  | step hr hstep ih => exact step_running_invariant _ _ hstep ih

/-- C1: at every reachable state, at most one RunRecord has status `running` —
the run log never holds two simultaneously running records, and every
operation (start, timer fire, completion, failure, stop) preserves this. -/
theorem runRecord_mutual_exclusion (s : SysState) (h : Reachable s) :
    runningCount s ≤ 1 :=
  (reachable_running_invariant s h).2

/-- Witness for C1 at a concrete reachable state: after a start from the
initial state, the (single-record) log has at most one running record. -/
theorem runRecord_mutual_exclusion_witness :
    runningCount (startSchedule 0 3600 initState) ≤ 1 :=
  runRecord_mutual_exclusion (startSchedule 0 3600 initState)
    (Reachable.step Reachable.init (Step.start initState 0 3600 (by decide)))

/-- Helper: the snapshots appended by one cycle all carry the cycle's shared
`captured_at`. -/
theorem mem_cycle_captured (listing : List ListingItem) (c : Int) (b : Snapshot)
    (hb : b ∈ listing.map
      (fun it => ({ entityId := it.externalId, capturedAt := c, counters := it.counters } :
        Snapshot))) :
    b.capturedAt = c := by
  obtain ⟨it, _, rfl⟩ := List.mem_map.mp hb
  rfl

/-- Helper: a cycle's snapshot batch, sharing one `captured_at`, is pairwise
ordered. -/
theorem pairwise_cycle_batch (listing : List ListingItem) (c : Int) :
    List.Pairwise (fun a b => a.capturedAt ≤ b.capturedAt)
      (listing.map
        (fun it => ({ entityId := it.externalId, capturedAt := c, counters := it.counters } :
          Snapshot))) := by
  induction listing with
  | nil => simp
  | cons x xs ih =>
    simp only [List.map_cons, List.pairwise_cons]
    refine ⟨?_, ih⟩
    intro b hb
    rw [mem_cycle_captured xs c b hb]

/-- Helper: one step preserves the snapshot-store invariant. -/
theorem step_snap_invariant (s s' : SysState) (hstep : Step s s') (ih : SnapInv s) :
    SnapInv s' := by
  obtain ⟨ih1, ih2, ih3⟩ := ih
  cases hstep with
  | start now intervalArg hcl =>
    cases hm : s.mode with
    | running =>
      refine ⟨?_, ?_, ?_⟩
      · simpa [startSchedule, hm] using ih1
      · simp only [startSchedule, hm]
        intro sn hsn
        exact (ih2 sn hsn).trans hcl
      · simp only [startSchedule, hm]
        intro hmode
        exact ⟨(ih3 hm).1, (ih3 hm).2.trans hcl⟩
    | idle =>
      refine ⟨?_, ?_, ?_⟩
      · simpa [startSchedule, beginRun, hm] using ih1
      · simp only [startSchedule, beginRun, hm]
        intro sn hsn
        exact (ih2 sn hsn).trans hcl
      · simp only [startSchedule, beginRun, hm]
        intro hmode
        exact ⟨fun sn hsn => (ih2 sn hsn).trans hcl, le_refl now⟩
    | scheduled =>
      refine ⟨?_, ?_, ?_⟩
      · simpa [startSchedule, beginRun, hm] using ih1
      · simp only [startSchedule, beginRun, hm]
        intro sn hsn
        exact (ih2 sn hsn).trans hcl
      · simp only [startSchedule, beginRun, hm]
        intro hmode
        exact ⟨fun sn hsn => (ih2 sn hsn).trans hcl, le_refl now⟩
  | fire now hcl hm =>
    refine ⟨?_, ?_, ?_⟩
    · simpa [fireTimer, beginRun] using ih1
    · simp only [fireTimer, beginRun]
      intro sn hsn
      exact (ih2 sn hsn).trans hcl
    · simp only [fireTimer, beginRun]
      intro hmode
      exact ⟨fun sn hsn => (ih2 sn hsn).trans hcl, le_refl now⟩
  | finishOk listing now hcl hm =>
    by_cases hc : s.cancelRequested
    · refine ⟨?_, ?_, ?_⟩
      · simpa [completeSuccess, hc] using ih1
      · simp only [completeSuccess, hc, if_true]
        intro sn hsn
        exact (ih2 sn hsn).trans hcl
      · simp only [completeSuccess, hc, if_true]
        intro hmode
        exact absurd hmode (by decide)
    · refine ⟨?_, ?_, ?_⟩
      · simp only [completeSuccess, hc, Bool.false_eq_true, if_false]
        rw [List.pairwise_append]
        refine ⟨ih1, pairwise_cycle_batch listing s.runStart, ?_⟩
        intro a ha b hb
        rw [mem_cycle_captured listing s.runStart b hb]
        exact (ih3 hm).1 a ha
      · simp only [completeSuccess, hc, Bool.false_eq_true, if_false]
        intro sn hsn
        rcases List.mem_append.mp hsn with hold | hnew
        · exact (ih2 sn hold).trans hcl
        · rw [mem_cycle_captured listing s.runStart sn hnew]
          exact (ih3 hm).2.trans hcl
      · simp only [completeSuccess, hc, Bool.false_eq_true, if_false]
        intro hmode
        exact absurd hmode (by decide)
  | finishFail err now hcl hm =>
    by_cases hc : s.cancelRequested
    · refine ⟨?_, ?_, ?_⟩
      · simpa [completeFailure, hc] using ih1
      · simp only [completeFailure, hc, if_true]
        intro sn hsn
        exact (ih2 sn hsn).trans hcl
      · simp only [completeFailure, hc, if_true]
        intro hmode
        exact absurd hmode (by decide)
    · refine ⟨?_, ?_, ?_⟩
      · simpa [completeFailure, hc] using ih1
      · simp only [completeFailure, hc, Bool.false_eq_true, if_false]
        intro sn hsn
        exact (ih2 sn hsn).trans hcl
      · simp only [completeFailure, hc, Bool.false_eq_true, if_false]
        intro hmode
        exact absurd hmode (by decide)
  | halt =>
    by_cases hmb : s.mode = SchedMode.running
    · refine ⟨?_, ?_, ?_⟩
      · simpa [stopSchedule, hmb] using ih1
      · simp only [stopSchedule, hmb]
        simp only [beq_self_eq_true, if_true]
        exact ih2
      · simp only [stopSchedule, hmb, beq_self_eq_true, if_true]
        intro hmode
        exact ih3 hmb
    · have hb : (s.mode == SchedMode.running) = false := by
        simpa using hmb
      refine ⟨?_, ?_, ?_⟩
      · simpa [stopSchedule, hb] using ih1
      · simp only [stopSchedule, hb, Bool.false_eq_true, if_false]
        exact ih2
      · simp only [stopSchedule, hb, Bool.false_eq_true, if_false]
        intro hmode
        exact absurd hmode (by decide)

/-- Helper: the snapshot-store invariant holds at every reachable state. -/
theorem reachable_snap_invariant (s : SysState) (h : Reachable s) : SnapInv s := by
  induction h with
  | init =>
    refine ⟨List.Pairwise.nil, by simp [initState], ?_⟩
    intro hmode
    exact absurd hmode (by decide)
  | step hr hstep ih => exact step_snap_invariant _ _ hstep ih

/-- C5: the Snapshot Store is append-only — every operation of the system
leaves the existing rows untouched, extending the store by a (possibly empty)
suffix — and for every fixed entity the `captured_at` values are non-decreasing
in insertion order (one cycle's batch shares a single `captured_at`, ties kept,
nothing deduplicated), an invariant preserved by every operation. -/
theorem snapshot_store_append_only (s s' : SysState) (hr : Reachable s) (hstep : Step s s') :
    (∃ t, s'.snapshots = s.snapshots ++ t) ∧
    ∀ e : Nat, List.Sorted (fun a b => a ≤ b)
      ((s'.snapshots.filter (fun sn => sn.entityId == e)).map Snapshot.capturedAt) := by
  constructor
  · cases hstep with
    | start now intervalArg hcl =>
      cases hm : s.mode with
      | running => exact ⟨[], by simp [startSchedule, hm]⟩
      | idle => exact ⟨[], by simp [startSchedule, beginRun, hm]⟩
      | scheduled => exact ⟨[], by simp [startSchedule, beginRun, hm]⟩
    | fire now hcl hm => exact ⟨[], by simp [fireTimer, beginRun]⟩
    | finishOk listing now hcl hm =>
      by_cases hc : s.cancelRequested
      · exact ⟨[], by simp [completeSuccess, hc]⟩
      · exact ⟨listing.map
          (fun it => { entityId := it.externalId, capturedAt := s.runStart,
                       counters := it.counters }), by simp [completeSuccess, hc]⟩
    | finishFail err now hcl hm =>
      by_cases hc : s.cancelRequested
      · exact ⟨[], by simp [completeFailure, hc]⟩
      · exact ⟨[], by simp [completeFailure, hc]⟩
    | halt =>
      by_cases hmb : s.mode = SchedMode.running
      · exact ⟨[], by simp [stopSchedule, hmb]⟩
      · exact ⟨[], by simp [stopSchedule, hmb]⟩
  · have hinv := reachable_snap_invariant s' (Reachable.step hr hstep)
    intro e
    have hp : List.Pairwise (fun a b => a.capturedAt ≤ b.capturedAt)
        (s'.snapshots.filter (fun sn => sn.entityId == e)) :=
      List.Pairwise.filter _ hinv.1
    exact List.pairwise_map.mpr hp

/-- Witness for C5 at a concrete input: the successful completion, at time 300,
of the run begun at time 0 extends the snapshot store by a suffix and leaves
entity 7's `captured_at` history sorted. -/
theorem snapshot_store_append_only_witness :
    (∃ t, (completeSuccess [⟨7, "g", "c", "a", ⟨1, 2, 3, 4, 5⟩⟩] 300
        (startSchedule 0 3600 initState)).snapshots =
      (startSchedule 0 3600 initState).snapshots ++ t) ∧
    List.Sorted (fun a b => a ≤ b)
      (((completeSuccess [⟨7, "g", "c", "a", ⟨1, 2, 3, 4, 5⟩⟩] 300
          (startSchedule 0 3600 initState)).snapshots.filter
        (fun sn => sn.entityId == 7)).map Snapshot.capturedAt) :=
  ⟨(snapshot_store_append_only (startSchedule 0 3600 initState) _
      (Reachable.step Reachable.init (Step.start initState 0 3600 (by decide)))
      (Step.finishOk _ [⟨7, "g", "c", "a", ⟨1, 2, 3, 4, 5⟩⟩] 300 (by decide) (by decide))).1,
   (snapshot_store_append_only (startSchedule 0 3600 initState) _
      (Reachable.step Reachable.init (Step.start initState 0 3600 (by decide)))
      (Step.finishOk _ [⟨7, "g", "c", "a", ⟨1, 2, 3, 4, 5⟩⟩] 300 (by decide) (by decide))).2 7⟩
